import Mathlib

set_option linter.unusedVariables false

/-!
Shallow embedding of `src/base/logging.h` (the V8 base checking and
fatal-error macros) and proofs about it.

The external abort service `V8_Fatal(file, line, format, ...)` never returns;
an invocation of it is modelled by a `FatalCall` value holding the file, the
line, and the message text obtained by expanding the printf-style format.  A
helper or macro that either returns normally or aborts is embedded as a
function returning `Option FatalCall`: `none` is the normal return, `some c`
is an abort carrying the data passed to `V8_Fatal`.

Build configuration (`#ifdef DEBUG`, `#ifdef ENABLE_EXTRA_PPCCHECKS`) is
resolved at compile time in C; here each configuration axis is an explicit
`Bool` parameter of the embedded macro, so one Lean function covers both
expansions of a macro.
-/

namespace V8Base

/-- A call to the external abort service `V8_Fatal(file, line, format, ...)`
(declared at logging.h:13, defined outside this repository), with the format
already expanded to the final message text. -/
structure FatalCall where
  file : String
  line : Int
  msg : String
deriving DecidableEq

/-- Embeds `CheckEqualsHelper(const char* file, int line, const char*
expected_source, int expected, const char* value_source, int value)`
(logging.h:45-53).  `int` values are embedded as `Int`: the helper performs no
arithmetic on them, only the comparison and the decimal `%i` rendering. -/
def CheckEqualsHelperInt (file : String) (line : Int) (expected_source : String)
    (expected : Int) (value_source : String) (value : Int) : Option FatalCall :=
  if expected ≠ value then
    some ⟨file, line,
      "CHECK_EQ(" ++ expected_source ++ ", " ++ value_source
        ++ ") failed\n#   Expected: " ++ toString expected
        ++ "\n#   Found: " ++ toString value⟩
  else none

/-- Embeds `CheckNonEqualsHelper(..., int unexpected, ..., int value)`
(logging.h:97-107). -/
def CheckNonEqualsHelperInt (file : String) (line : Int)
    (unexpected_source : String) (unexpected : Int) (value_source : String)
    (value : Int) : Option FatalCall :=
  if unexpected = value then
    some ⟨file, line,
      "CHECK_NE(" ++ unexpected_source ++ ", " ++ value_source
        ++ ") failed\n#   Value: " ++ toString value⟩
  else none

/-- One lowercase hexadecimal digit, as printf `%x` writes it. -/
def hexDigit (n : Nat) : Char :=
  if n < 10 then Char.ofNat (48 + n) else Char.ofNat (87 + n)

/-- Zero-padded eight-digit lowercase hexadecimal rendering of a 32-bit value,
as printf `%08x` writes it. -/
def hex08 (n : Nat) : String :=
  String.mk ((List.range 8).map (fun i => hexDigit (n / 16 ^ (7 - i) % 16)))

/-- Embeds the C cast `static_cast<uint32_t>(x)` of a signed integer value:
reduction modulo 2^32 (`Int.emod` is non-negative for a positive modulus). -/
def toUInt32Nat (x : Int) : Nat := (x % (2 ^ 32 : Int)).toNat

/-- Embeds the shift `x >> 32` of an `int64_t` value: arithmetic shift, i.e.
floor division by 2^32 (signed right shift is implementation-defined in the
source's C++ dialect but arithmetic on the compilers this header targets). -/
def shr32 (x : Int) : Int := Int.fdiv x (2 ^ 32)

/-- Embeds `CheckEqualsHelper(..., int64_t expected, ..., int64_t value)`
(logging.h:58-75): on failure the two operands are rendered in hex as two
32-bit halves each, `0x%08x%08x` applied to `static_cast<uint32_t>(x >> 32)`
and `static_cast<uint32_t>(x)`. -/
def CheckEqualsHelperInt64 (file : String) (line : Int)
    (expected_source : String) (expected : Int) (value_source : String)
    (value : Int) : Option FatalCall :=
  if expected ≠ value then
    some ⟨file, line,
      "CHECK_EQ(" ++ expected_source ++ ", " ++ value_source
        ++ ") failed\n#   Expected: 0x"
        ++ hex08 (toUInt32Nat (shr32 expected)) ++ hex08 (toUInt32Nat expected)
        ++ "\n#   Found: 0x"
        ++ hex08 (toUInt32Nat (shr32 value)) ++ hex08 (toUInt32Nat value)⟩
  else none

/-- Embeds `CheckNonEqualsHelper(..., int64_t expected, ..., int64_t value)`
(logging.h:195-206).  The source's format string is
`"CHECK_EQ(%s, %s) failed\n#   Expected: %f\n#   Found: %f"`: it names
CHECK_EQ although this is the not-equals helper, and it applies the two `%f`
(double) conversions to `int64_t` arguments, which is undefined behavior in
C's varargs protocol.  The embedding therefore expands only the two
well-defined `%s` conversions and keeps the `%f` conversion specifiers as
literal text of the message: whatever bytes a real run would produce there,
they are not the hex-halves rendering. -/
def CheckNonEqualsHelperInt64 (file : String) (line : Int)
    (expected_source : String) (expected : Int) (value_source : String)
    (value : Int) : Option FatalCall :=
  if expected = value then
    some ⟨file, line,
      "CHECK_EQ(" ++ expected_source ++ ", " ++ value_source
        ++ ") failed\n#   Expected: %f\n#   Found: %f"⟩
  else none

/-- A non-null `const char*` string reference: the address the pointer holds
and the bytes of the NUL-terminated string it points at (the bytes strictly
before the terminator).  A nullable reference is an `Option CStrRef`, `none`
being NULL.  A well-formed C string has no interior NUL byte; that is the
hypothesis `noNulByte` where it matters. -/
structure CStrRef where
  addr : Nat
  bytes : List Nat
deriving DecidableEq

/-- Bytes of a well-formed C string: none of them is the NUL terminator. -/
def noNulByte (l : List Nat) : Bool := l.all (fun b => b != 0)

/-- Well-formedness of a nullable string reference. -/
def cstrWf : Option CStrRef → Bool
  | none => true
  | some x => noNulByte x.bytes

/-- Memory consistency of two string references: if they hold the same address
they point at the same bytes.  (In C two equal `char*` values read the same
memory; the model carries the bytes inside the reference, so consistency is a
hypothesis.) -/
def addrConsistent : Option CStrRef → Option CStrRef → Bool
  | some x, some y => x.addr != y.addr || x.bytes == y.bytes
  | _, _ => true

/-- The pointer comparison `expected == value` on two `const char*` values:
both NULL, or both non-null and holding the same address. -/
def cstrPtrEq : Option CStrRef → Option CStrRef → Bool
  | none, none => true
  | some x, some y => x.addr == y.addr
  | _, _ => false

/-- Embeds C `strcmp` on the byte lists of two NUL-terminated strings: the
first position where they differ decides the sign, and running off the end of
a list is reading the NUL terminator (byte value 0). -/
def strcmp : List Nat → List Nat → Int
  | [], [] => 0
  | [], b :: _ => 0 - (b : Int)
  | a :: _, [] => (a : Int)
  | a :: as, b :: bs => if a = b then strcmp as bs else (a : Int) - (b : Int)

/-- Rendering of a `const char*` by printf `%s`.  Passing NULL to `%s` is
undefined behavior (glibc renders "(null)"); no property below depends on this
rendering. -/
def renderCStr : Option CStrRef → String
  | none => "(null)"
  | some x => String.mk (x.bytes.map Char.ofNat)

/-- Embeds `CheckEqualsHelper(..., const char* expected, ..., const char*
value)` (logging.h:112-125).  The abort condition is the source's
`(expected == NULL && value != NULL) || (expected != NULL && value == NULL) ||
(expected != NULL && value != NULL && strcmp(expected, value) != 0)`; the
inner match is the third disjunct. -/
def CheckEqualsHelperStr (file : String) (line : Int) (expected_source : String)
    (expected : Option CStrRef) (value_source : String)
    (value : Option CStrRef) : Option FatalCall :=
  if (expected.isNone && value.isSome) || (expected.isSome && value.isNone)
      || (match expected, value with
          | some e, some v => strcmp e.bytes v.bytes != 0
          | _, _ => false) then
    some ⟨file, line,
      "CHECK_EQ(" ++ expected_source ++ ", " ++ value_source
        ++ ") failed\n#   Expected: " ++ renderCStr expected
        ++ "\n#   Found: " ++ renderCStr value⟩
  else none

/-- Embeds `CheckNonEqualsHelper(..., const char* expected, ..., const char*
value)` (logging.h:128-139).  The abort condition is the source's
`expected == value || (expected != NULL && value != NULL &&
strcmp(expected, value) == 0)`: the first disjunct is the pointer comparison,
the inner match the second disjunct. -/
def CheckNonEqualsHelperStr (file : String) (line : Int)
    (expected_source : String) (expected : Option CStrRef)
    (value_source : String) (value : Option CStrRef) : Option FatalCall :=
  if cstrPtrEq expected value
      || (match expected, value with
          | some e, some v => strcmp e.bytes v.bytes == 0
          | _, _ => false) then
    some ⟨file, line,
      "CHECK_NE(" ++ expected_source ++ ", " ++ value_source
        ++ ") failed\n#   Value: " ++ renderCStr value⟩
  else none

/-- A `const void*` operand together with the bytes of the object it points
at.  The content takes no part in the helpers' comparison (they compare the
addresses only); carrying it in the model lets that irrelevance be stated. -/
structure CPtr where
  addr : Nat
  content : List Nat
deriving DecidableEq

/-- Rendering of a pointer by printf `%p` (implementation-defined; rendered
here as the address in hex; no property below depends on it). -/
def renderPtr (p : CPtr) : String := "0x" ++ hex08 (p.addr % 2 ^ 32)

/-- Embeds `CheckEqualsHelper(..., const void* expected, ..., const void*
value)` (logging.h:144-156): the comparison is `expected != value` on the
pointer values themselves. -/
def CheckEqualsHelperPtr (file : String) (line : Int) (expected_source : String)
    (expected : CPtr) (value_source : String) (value : CPtr) :
    Option FatalCall :=
  if expected.addr ≠ value.addr then
    some ⟨file, line,
      "CHECK_EQ(" ++ expected_source ++ ", " ++ value_source
        ++ ") failed\n#   Expected: " ++ renderPtr expected
        ++ "\n#   Found: " ++ renderPtr value⟩
  else none

/-- Embeds `CheckNonEqualsHelper(..., const void* expected, ..., const void*
value)` (logging.h:159-169). -/
def CheckNonEqualsHelperPtr (file : String) (line : Int)
    (expected_source : String) (expected : CPtr) (value_source : String)
    (value : CPtr) : Option FatalCall :=
  if expected.addr = value.addr then
    some ⟨file, line,
      "CHECK_NE(" ++ expected_source ++ ", " ++ value_source
        ++ ") failed\n#   Value: " ++ renderPtr value⟩
  else none

/-- A double-precision value as the helpers below use it.  They only store,
reload and compare their operands, so doubles are embedded as an abstract set
of values with decidable equality, coded by `Int`; no floating-point
arithmetic occurs in the embedded code, and no property below depends on
which values the comparison identifies, only on the effect trace. -/
abbrev CDouble := Int

/-- A heap cell identifier: the model's stand-in for the address returned by
`new double[1]`. -/
abbrev CellId := Nat

/-- The allocation events a helper performs on the heap. -/
inductive HeapEvent where
  | alloc (id : CellId)
  | free (id : CellId)
deriving DecidableEq

/-- The model heap the double helpers act on: the live cells (identifier and
content, `none` while uninitialized) and a freshness counter handing out new
identifiers.  The counter only makes new identifiers distinct from live ones;
a real allocator may reuse freed addresses, so "no cumulative state change"
is read on `cells`, the live allocations. -/
structure Heap where
  next : CellId
  cells : List (CellId × Option CDouble)
deriving DecidableEq

/-- The empty heap. -/
def Heap.empty : Heap := ⟨0, []⟩

/-- Embeds `new double[1]`: a fresh, uninitialized cell. -/
def Heap.alloc (h : Heap) : CellId × Heap :=
  (h.next, ⟨h.next + 1, (h.next, none) :: h.cells⟩)

/-- Embeds the volatile store `*p = x`. -/
def Heap.store (h : Heap) (p : CellId) (x : CDouble) : Heap :=
  ⟨h.next, h.cells.map (fun c => if c.1 = p then (p, some x) else c)⟩

/-- Embeds the volatile load `*p`. -/
def Heap.load (h : Heap) (p : CellId) : Option CDouble :=
  match h.cells.find? (fun c => c.1 == p) with
  | some c => c.2
  | none => none

/-- Embeds `delete[] p`. -/
def Heap.dealloc (h : Heap) (p : CellId) : Heap :=
  ⟨h.next, h.cells.filter (fun c => c.1 != p)⟩

/-- A well-formed heap: every live cell was handed out by the freshness
counter. -/
def Heap.wf (h : Heap) : Prop := ∀ c ∈ h.cells, c.1 < h.next

/-- Rendering by printf `%f` of a reloaded double (no property below depends
on it). -/
def renderLoadedDouble : Option CDouble → String
  | some x => toString x
  | none => ""

/-- Embeds `CheckEqualsHelper(..., double expected, ..., double value)`
(logging.h:174-192).  The helper forces both operands through freshly
allocated volatile memory (`new double[1]`, store, reload) before comparing,
and frees both cells before returning.  The heap is threaded explicitly and
the helper's allocation events are returned alongside the result and the
final heap. -/
def CheckEqualsHelperDouble (file : String) (line : Int)
    (expected_source : String) (expected : CDouble) (value_source : String)
    (value : CDouble) (h0 : Heap) : Option FatalCall × Heap × List HeapEvent :=
  let a1 := h0.alloc                        -- volatile double* exp = new double[1];
  let h2 := a1.2.store a1.1 expected        -- *exp = expected;
  let a3 := h2.alloc                        -- volatile double* val = new double[1];
  let h4 := a3.2.store a3.1 value           -- *val = value;
  let r : Option FatalCall :=               -- if (*exp != *val) V8_Fatal(...);
    if h4.load a1.1 ≠ h4.load a3.1 then
      some ⟨file, line,
        "CHECK_EQ(" ++ expected_source ++ ", " ++ value_source
          ++ ") failed\n#   Expected: " ++ renderLoadedDouble (h4.load a1.1)
          ++ "\n#   Found: " ++ renderLoadedDouble (h4.load a3.1)⟩
    else none
  let h5 := (h4.dealloc a1.1).dealloc a3.1  -- delete[] exp; delete[] val;
  (r, h5,
    [HeapEvent.alloc a1.1, HeapEvent.alloc a3.1,
     HeapEvent.free a1.1, HeapEvent.free a3.1])

/-- Embeds `CheckNonEqualsHelper(..., double expected, ..., double value)`
(logging.h:209-227): the same volatile round trip, aborting when the reloaded
values compare equal. -/
def CheckNonEqualsHelperDouble (file : String) (line : Int)
    (expected_source : String) (expected : CDouble) (value_source : String)
    (value : CDouble) (h0 : Heap) : Option FatalCall × Heap × List HeapEvent :=
  let a1 := h0.alloc                        -- volatile double* exp = new double[1];
  let h2 := a1.2.store a1.1 expected        -- *exp = expected;
  let a3 := h2.alloc                        -- volatile double* val = new double[1];
  let h4 := a3.2.store a3.1 value           -- *val = value;
  let r : Option FatalCall :=               -- if (*exp == *val) V8_Fatal(...);
    if h4.load a1.1 = h4.load a3.1 then
      some ⟨file, line,
        "CHECK_NE(" ++ expected_source ++ ", " ++ value_source
          ++ ") failed\n#   Value: " ++ renderLoadedDouble (h4.load a3.1)⟩
    else none
  let h5 := (h4.dealloc a1.1).dealloc a3.1  -- delete[] exp; delete[] val;
  (r, h5,
    [HeapEvent.alloc a1.1, HeapEvent.alloc a3.1,
     HeapEvent.free a1.1, HeapEvent.free a3.1])

/-- Embeds the CHECK macro (logging.h:36-40).  CHECK is defined outside every
build-mode conditional, so its expansion does not read the DEBUG flag; the
`debug` parameter records that by being unused. -/
def CHECK (debug : Bool) (file : String) (line : Int)
    (condition_source : String) (condition : Bool) : Option FatalCall :=
  if !condition then
    some ⟨file, line, "CHECK(" ++ condition_source ++ ") failed"⟩
  else none

/-- Embeds CHECK_EQ (logging.h:230-231) at `int` operands: the macro expands
to `CheckEqualsHelper(__FILE__, __LINE__, #expected, expected, #value,
value)`, overload resolution picking the `int` helper.  Like CHECK it is
defined outside every build-mode conditional. -/
def CHECK_EQ_int (debug : Bool) (file : String) (line : Int)
    (expected_source : String) (expected : Int) (value_source : String)
    (value : Int) : Option FatalCall :=
  CheckEqualsHelperInt file line expected_source expected value_source value

/-- Embeds CHECK_NE (logging.h:234-235) at `int` operands. -/
def CHECK_NE_int (debug : Bool) (file : String) (line : Int)
    (unexpected_source : String) (unexpected : Int) (value_source : String)
    (value : Int) : Option FatalCall :=
  CheckNonEqualsHelperInt file line unexpected_source unexpected value_source
    value

/-- Embeds `CHECK_GT(a, b)`, i.e. `CHECK((a) > (b))` (logging.h:238): the
stringized condition is the relational expression's source text. -/
def CHECK_GT (debug : Bool) (file : String) (line : Int)
    (a_source b_source : String) (a b : Int) : Option FatalCall :=
  CHECK debug file line ("(" ++ a_source ++ ") > (" ++ b_source ++ ")")
    (decide (a > b))

/-- Embeds `CHECK_GE(a, b)`, i.e. `CHECK((a) >= (b))` (logging.h:239). -/
def CHECK_GE (debug : Bool) (file : String) (line : Int)
    (a_source b_source : String) (a b : Int) : Option FatalCall :=
  CHECK debug file line ("(" ++ a_source ++ ") >= (" ++ b_source ++ ")")
    (decide (a ≥ b))

/-- Embeds `CHECK_LT(a, b)`, i.e. `CHECK((a) < (b))` (logging.h:240). -/
def CHECK_LT (debug : Bool) (file : String) (line : Int)
    (a_source b_source : String) (a b : Int) : Option FatalCall :=
  CHECK debug file line ("(" ++ a_source ++ ") < (" ++ b_source ++ ")")
    (decide (a < b))

/-- Embeds `CHECK_LE(a, b)`, i.e. `CHECK((a) <= (b))` (logging.h:241). -/
def CHECK_LE (debug : Bool) (file : String) (line : Int)
    (a_source b_source : String) (a b : Int) : Option FatalCall :=
  CHECK debug file line ("(" ++ a_source ++ ") <= (" ++ b_source ++ ")")
    (decide (a ≤ b))

/-- Embeds FATAL(msg) (logging.h:19-20 and 26-27): in a DEBUG build
`V8_Fatal(__FILE__, __LINE__, "%s", (msg))`, otherwise
`V8_Fatal("", 0, "%s", (msg))`.  It aborts in both modes. -/
def FATAL (debug : Bool) (file : String) (line : Int) (msg : String) :
    Option FatalCall :=
  if debug then some ⟨file, line, msg⟩ else some ⟨"", 0, msg⟩

/-- Embeds UNIMPLEMENTED() (logging.h:21-22 and 28-29): it aborts in both
modes, with the call-site location only in a DEBUG build. -/
def UNIMPLEMENTED (debug : Bool) (file : String) (line : Int) :
    Option FatalCall :=
  if debug then some ⟨file, line, "unimplemented code"⟩
  else some ⟨"", 0, "unimplemented code"⟩

/-- Embeds UNREACHABLE() (logging.h:23-24 and 30): in a DEBUG build
`V8_Fatal(__FILE__, __LINE__, "unreachable code")`, otherwise `((void) 0)`. -/
def UNREACHABLE (debug : Bool) (file : String) (line : Int) :
    Option FatalCall :=
  if debug then some ⟨file, line, "unreachable code"⟩ else none

/-- Embeds ASSERT(condition) (logging.h:258 and 266).  In a DEBUG build the
macro is `CHECK(condition)`: the condition expression — modelled as a state
transformer `σ → Bool × σ`, an expression with a value and a side effect — is
evaluated and checked.  In a production build the macro is `((void) 0)`: the
condition expression is not evaluated at all and the state is untouched. -/
def ASSERT {σ : Type} (debug : Bool) (file : String) (line : Int)
    (condition_source : String) (condition : σ → Bool × σ) (s : σ) :
    Option FatalCall × σ :=
  if debug then
    let r := condition s
    (CHECK debug file line condition_source r.1, r.2)
  else (none, s)

/-- Embeds ASSERT_RESULT(expr) (logging.h:257 and 265).  In a DEBUG build the
macro is `CHECK(expr)`; in a production build it is `(expr)`: the expression
is still evaluated and yields its value, only the check is elided.  The
returned triple is the abort outcome, the expression's value and the state
after evaluating it. -/
def ASSERT_RESULT {σ : Type} (debug : Bool) (file : String) (line : Int)
    (expr_source : String) (expr : σ → Bool × σ) (s : σ) :
    Option FatalCall × Bool × σ :=
  if debug then
    let r := expr s
    (CHECK debug file line expr_source r.1, r.1, r.2)
  else
    let r := expr s
    (none, r.1, r.2)

/-- Embeds ASSERT_EQ(v1, v2) (logging.h:259 and 267) at `int` operands:
`CHECK_EQ(v1, v2)` in a DEBUG build, `((void) 0)` otherwise. -/
def ASSERT_EQ (debug : Bool) (file : String) (line : Int) (v1_source : String)
    (v1 : Int) (v2_source : String) (v2 : Int) : Option FatalCall :=
  if debug then CHECK_EQ_int debug file line v1_source v1 v2_source v2
  else none

/-- Embeds ASSERT_NE(v1, v2) (logging.h:260 and 268) at `int` operands. -/
def ASSERT_NE (debug : Bool) (file : String) (line : Int) (v1_source : String)
    (v1 : Int) (v2_source : String) (v2 : Int) : Option FatalCall :=
  if debug then CHECK_NE_int debug file line v1_source v1 v2_source v2
  else none

/-- Embeds ASSERT_GE(v1, v2) (logging.h:261 and 269). -/
def ASSERT_GE (debug : Bool) (file : String) (line : Int) (v1_source : String)
    (v1 : Int) (v2_source : String) (v2 : Int) : Option FatalCall :=
  if debug then CHECK_GE debug file line v1_source v2_source v1 v2 else none

/-- Embeds ASSERT_LT(v1, v2) (logging.h:262 and 270). -/
def ASSERT_LT (debug : Bool) (file : String) (line : Int) (v1_source : String)
    (v1 : Int) (v2_source : String) (v2 : Int) : Option FatalCall :=
  if debug then CHECK_LT debug file line v1_source v2_source v1 v2 else none

/-- Embeds ASSERT_LE(v1, v2) (logging.h:263 and 271). -/
def ASSERT_LE (debug : Bool) (file : String) (line : Int) (v1_source : String)
    (v1 : Int) (v2_source : String) (v2 : Int) : Option FatalCall :=
  if debug then CHECK_LE debug file line v1_source v2_source v1 v2 else none

/-- Embeds PPCPORT_CHECK(condition) (logging.h:289 and 293): CHECK(condition)
when ENABLE_EXTRA_PPCCHECKS is set, `((void) 0)` otherwise. -/
def PPCPORT_CHECK (ppcChecks debug : Bool) (file : String) (line : Int)
    (condition_source : String) (condition : Bool) : Option FatalCall :=
  if ppcChecks then CHECK debug file line condition_source condition else none

/-- Embeds PPCPORT_UNIMPLEMENTED() (logging.h:290 and 294): UNIMPLEMENTED()
when ENABLE_EXTRA_PPCCHECKS is set, `((void) 0)` otherwise. -/
def PPCPORT_UNIMPLEMENTED (ppcChecks debug : Bool) (file : String)
    (line : Int) : Option FatalCall :=
  if ppcChecks then UNIMPLEMENTED debug file line else none

/-- Embeds PPCPORT_UNSAFE_IMPLEMENTATION() (logging.h:291 and 295):
`((void)0)` in both branches of the `#ifdef ENABLE_EXTRA_PPCCHECKS`
conditional; the embedding keeps the two branches of the source. -/
def PPCPORT_UNSAFE_IMPLEMENTATION (ppcChecks debug : Bool) :
    Option FatalCall :=
  if ppcChecks then none else none

/-- The spec's content-equality relation on nullable string references,
written from the spec's words (the refinement target the string helpers are
compared against): two null references are equal; one null and one non-null
are unequal; two non-null references are equal iff their byte contents match
exactly. -/
def strContentEqSpec : Option CStrRef → Option CStrRef → Prop
  | none, none => True
  | some x, some y => x.bytes = y.bytes
  | _, _ => False

instance instDecStrContentEqSpec (a b : Option CStrRef) :
    Decidable (strContentEqSpec a b) :=
  match a, b with
  | none, none => isTrue trivial
  | some x, some y => inferInstanceAs (Decidable (x.bytes = y.bytes))
  | none, some _ => isFalse (fun h => h)
  | some _, none => isFalse (fun h => h)

/-! ### Lemmas about `strcmp` and the string helpers -/

/-- C `strcmp` of a string with itself returns 0. -/
theorem strcmp_self (a : List Nat) : strcmp a a = 0 := by
  induction a with
  | nil => rfl
  | cons x xs ih => simp [strcmp, ih]

/-- C `strcmp` returns 0 exactly on equal well-formed strings. -/
theorem strcmp_eq_zero_iff {a b : List Nat} (ha : noNulByte a = true)
    (hb : noNulByte b = true) : strcmp a b = 0 ↔ a = b := by
  induction a generalizing b with
  | nil =>
    cases b with
    | nil => simp [strcmp]
    | cons y ys =>
      have hy : y ≠ 0 := by
        simp [noNulByte] at hb
        exact hb.1
      simp only [strcmp]
      constructor
      · intro h; exfalso; omega
      · intro h; exact absurd h (by simp)
  | cons x xs ih =>
    cases b with
    | nil =>
      have hx : x ≠ 0 := by
        simp [noNulByte] at ha
        exact ha.1
      simp only [strcmp]
      constructor
      · intro h; exfalso; omega
      · intro h; exact absurd h (by simp)
    | cons y ys =>
      have hxs : noNulByte xs = true := by
        simp [noNulByte] at ha ⊢
        exact ha.2
      have hys : noNulByte ys = true := by
        simp [noNulByte] at hb ⊢
        exact hb.2
      simp only [strcmp]
      by_cases hxy : x = y
      · subst hxy
        rw [if_pos rfl, ih hxs hys]
        simp
      · rw [if_neg hxy]
        constructor
        · intro h; exfalso; omega
        · intro h
          injection h with h1 h2
          exact absurd h1 hxy

/-- The equals-mode string helper returns normally exactly on the spec's
content-equality relation. -/
theorem checkEqualsHelperStr_eq_none_iff (file : String) (line : Int)
    (es vs : String) (e v : Option CStrRef) (he : cstrWf e = true)
    (hv : cstrWf v = true) :
    CheckEqualsHelperStr file line es e vs v = none ↔ strContentEqSpec e v := by
  cases e with
  | none =>
    cases v with
    | none => simp [CheckEqualsHelperStr, strContentEqSpec]
    | some y => simp [CheckEqualsHelperStr, strContentEqSpec]
  | some x =>
    cases v with
    | none => simp [CheckEqualsHelperStr, strContentEqSpec]
    | some y =>
      have hx : noNulByte x.bytes = true := he
      have hy : noNulByte y.bytes = true := hv
      by_cases hs : strcmp x.bytes y.bytes = 0
      · have hbytes : x.bytes = y.bytes := (strcmp_eq_zero_iff hx hy).mp hs
        simp [CheckEqualsHelperStr, strContentEqSpec, hs, hbytes, strcmp_self]
      · have hbytes : x.bytes ≠ y.bytes :=
          fun hh => hs ((strcmp_eq_zero_iff hx hy).mpr hh)
        simp [CheckEqualsHelperStr, strContentEqSpec, hs, hbytes]

/-- The not-equals-mode string helper aborts exactly on the spec's
content-equality relation (here the memory-consistency hypothesis matters:
the source's first disjunct compares the two pointers). -/
theorem checkNonEqualsHelperStr_ne_none_iff (file : String) (line : Int)
    (es vs : String) (e v : Option CStrRef) (he : cstrWf e = true)
    (hv : cstrWf v = true) (hc : addrConsistent e v = true) :
    CheckNonEqualsHelperStr file line es e vs v ≠ none ↔
      strContentEqSpec e v := by
  cases e with
  | none =>
    cases v with
    | none => simp [CheckNonEqualsHelperStr, strContentEqSpec, cstrPtrEq]
    | some y => simp [CheckNonEqualsHelperStr, strContentEqSpec, cstrPtrEq]
  | some x =>
    cases v with
    | none => simp [CheckNonEqualsHelperStr, strContentEqSpec, cstrPtrEq]
    | some y =>
      have hx : noNulByte x.bytes = true := he
      have hy : noNulByte y.bytes = true := hv
      by_cases hs : strcmp x.bytes y.bytes = 0
      · have hbytes : x.bytes = y.bytes := (strcmp_eq_zero_iff hx hy).mp hs
        simp [CheckNonEqualsHelperStr, strContentEqSpec, cstrPtrEq, hs, hbytes,
          strcmp_self]
      · have hbytes : x.bytes ≠ y.bytes :=
          fun hh => hs ((strcmp_eq_zero_iff hx hy).mpr hh)
        have haddr : x.addr ≠ y.addr := by
          intro hh
          have hcc : x.bytes = y.bytes := by
            simpa [addrConsistent, hh] using hc
          exact hbytes hcc
        simp [CheckNonEqualsHelperStr, strContentEqSpec, cstrPtrEq, hs, hbytes,
          haddr]

/-- The equals-mode int helper returns normally exactly on equal operands. -/
theorem checkEqualsHelperInt_eq_none_iff (file : String) (line : Int)
    (es vs : String) (a b : Int) :
    CheckEqualsHelperInt file line es a vs b = none ↔ a = b := by
  by_cases h : a = b <;> simp [CheckEqualsHelperInt, h]

/-- The not-equals-mode int helper aborts exactly on equal operands. -/
theorem checkNonEqualsHelperInt_ne_none_iff (file : String) (line : Int)
    (es vs : String) (a b : Int) :
    CheckNonEqualsHelperInt file line es a vs b ≠ none ↔ a = b := by
  by_cases h : a = b <;> simp [CheckNonEqualsHelperInt, h]

/-! ### Claim theorems -/

/-- C1: for the `const char*` comparison helpers, with any file/line and
source texts and every pair of nullable, well-formed, memory-consistent
string references, equality is content equality: the equals-mode helper
returns normally exactly when the spec's content-equality relation holds (so
it does not abort on two null references, aborts when exactly one is null,
and for two non-null references aborts iff their byte contents differ), and
the not-equals-mode helper aborts exactly when that equality relation
holds. -/
theorem cstr_helpers_content_equality (file : String) (line : Int)
    (es vs : String) (e v : Option CStrRef) (he : cstrWf e = true)
    (hv : cstrWf v = true) (hc : addrConsistent e v = true) :
    (CheckEqualsHelperStr file line es e vs v = none ↔ strContentEqSpec e v) ∧
    (CheckNonEqualsHelperStr file line es e vs v ≠ none ↔
      strContentEqSpec e v) :=
  ⟨checkEqualsHelperStr_eq_none_iff file line es vs e v he hv,
   checkNonEqualsHelperStr_ne_none_iff file line es vs e v he hv hc⟩

/-- C1 witness: the theorem applied to the references "abc" at address 1 and
"abc" at address 2. -/
theorem cstr_helpers_content_equality_witness :
    cstrWf (some ⟨1, [97, 98, 99]⟩) = true ∧
    cstrWf (some ⟨2, [97, 98, 99]⟩) = true ∧
    addrConsistent (some ⟨1, [97, 98, 99]⟩) (some ⟨2, [97, 98, 99]⟩) = true ∧
    (CheckEqualsHelperStr "f.cc" 7 "a" (some ⟨1, [97, 98, 99]⟩) "b"
        (some ⟨2, [97, 98, 99]⟩) = none ↔
      strContentEqSpec (some ⟨1, [97, 98, 99]⟩) (some ⟨2, [97, 98, 99]⟩)) ∧
    (CheckNonEqualsHelperStr "f.cc" 7 "a" (some ⟨1, [97, 98, 99]⟩) "b"
        (some ⟨2, [97, 98, 99]⟩) ≠ none ↔
      strContentEqSpec (some ⟨1, [97, 98, 99]⟩) (some ⟨2, [97, 98, 99]⟩)) :=
  ⟨by decide, by decide, by decide,
   (cstr_helpers_content_equality "f.cc" 7 "a" "b" (some ⟨1, [97, 98, 99]⟩)
      (some ⟨2, [97, 98, 99]⟩) (by decide) (by decide) (by decide)).1,
   (cstr_helpers_content_equality "f.cc" 7 "a" "b" (some ⟨1, [97, 98, 99]⟩)
      (some ⟨2, [97, 98, 99]⟩) (by decide) (by decide) (by decide)).2⟩

/-- C10: for the 32-bit signed integer and raw byte string kinds, the
equals-mode and not-equals-mode helpers abort on exactly complementary
conditions: for every pair of operand values (and any file/line and source
texts), the equals helper aborts if and only if the not-equals helper does
not abort. -/
theorem eq_ne_helpers_complementary (file : String) (line : Int)
    (es vs : String) (a b : Int) (e v : Option CStrRef) (he : cstrWf e = true)
    (hv : cstrWf v = true) (hc : addrConsistent e v = true) :
    (CheckEqualsHelperInt file line es a vs b ≠ none ↔
      CheckNonEqualsHelperInt file line es a vs b = none) ∧
    (CheckEqualsHelperStr file line es e vs v ≠ none ↔
      CheckNonEqualsHelperStr file line es e vs v = none) := by
  have h1 := checkEqualsHelperInt_eq_none_iff file line es vs a b
  have h2 := checkNonEqualsHelperInt_ne_none_iff file line es vs a b
  have h3 := checkEqualsHelperStr_eq_none_iff file line es vs e v he hv
  have h4 := checkNonEqualsHelperStr_ne_none_iff file line es vs e v he hv hc
  constructor
  · constructor
    · intro hx
      by_contra hy
      exact hx (h1.mpr (h2.mp hy))
    · intro hy hx
      exact h2.mpr (h1.mp hx) hy
  · constructor
    · intro hx
      by_contra hy
      exact hx (h3.mpr (h4.mp hy))
    · intro hy hx
      exact h4.mpr (h3.mp hx) hy

/-- C10 witness: the theorem applied to the int operands 1 and 2 and to the
references NULL and "x" at address 1. -/
theorem eq_ne_helpers_complementary_witness :
    cstrWf (none : Option CStrRef) = true ∧
    cstrWf (some ⟨1, [120]⟩) = true ∧
    addrConsistent none (some ⟨1, [120]⟩) = true ∧
    (CheckEqualsHelperInt "f.cc" 7 "a" 1 "b" 2 ≠ none ↔
      CheckNonEqualsHelperInt "f.cc" 7 "a" 1 "b" 2 = none) ∧
    (CheckEqualsHelperStr "f.cc" 7 "a" none "b" (some ⟨1, [120]⟩) ≠ none ↔
      CheckNonEqualsHelperStr "f.cc" 7 "a" none "b" (some ⟨1, [120]⟩) =
        none) :=
  ⟨by decide, by decide, by decide,
   (eq_ne_helpers_complementary "f.cc" 7 "a" "b" 1 2 none (some ⟨1, [120]⟩)
      (by decide) (by decide) (by decide)).1,
   (eq_ne_helpers_complementary "f.cc" 7 "a" "b" 1 2 none (some ⟨1, [120]⟩)
      (by decide) (by decide) (by decide)).2⟩

/-- C2 (evaluation at the failure case): the equals-mode int64 helper renders
its operands as two 32-bit hex halves — expected 0x0000000100000002 and found
0x0000000000000003 render as 00000001 00000002 and 00000000 00000003 — but
the not-equals-mode int64 helper, evaluated at its failure case (equal
operands, here 3), aborts with a message that names CHECK_EQ instead of
CHECK_NE and carries `%f` conversions applied to the int64 operands instead
of any hex-halves rendering. -/
theorem int64_helpers_message_eval :
    CheckEqualsHelperInt64 "f.cc" 7 "a" 4294967298 "b" 3 =
      some ⟨"f.cc", 7,
        "CHECK_EQ(a, b) failed\n#   Expected: 0x0000000100000002\n#   Found: 0x0000000000000003"⟩ ∧
    CheckNonEqualsHelperInt64 "f.cc" 7 "a" 3 "b" 3 =
      some ⟨"f.cc", 7,
        "CHECK_EQ(a, b) failed\n#   Expected: %f\n#   Found: %f"⟩ := by
  constructor
  · rfl
  · rfl

/-- C4: the unconditional check family is compiled in regardless of build
mode — each member expands identically under both values of the DEBUG flag —
it aborts exactly when its predicate is false, and the four ordering checks
reduce to CHECK applied to the boolean relational expression; in particular
CHECK_GT(5, 3) returns without aborting and CHECK_GT(3, 5) aborts. -/
theorem check_family_unconditional (debug : Bool) (file : String) (line : Int)
    (csrc as bs es vs : String) (c : Bool) (a b x y : Int) :
    (CHECK debug file line csrc c = CHECK true file line csrc c) ∧
    (CHECK_EQ_int debug file line es x vs y =
      CHECK_EQ_int true file line es x vs y) ∧
    (CHECK_NE_int debug file line es x vs y =
      CHECK_NE_int true file line es x vs y) ∧
    (CHECK_GT debug file line as bs a b = CHECK_GT true file line as bs a b) ∧
    (CHECK_GE debug file line as bs a b = CHECK_GE true file line as bs a b) ∧
    (CHECK_LT debug file line as bs a b = CHECK_LT true file line as bs a b) ∧
    (CHECK_LE debug file line as bs a b = CHECK_LE true file line as bs a b) ∧
    (CHECK debug file line csrc c = none ↔ c = true) ∧
    (CHECK_EQ_int debug file line es x vs y = none ↔ x = y) ∧
    (CHECK_NE_int debug file line es x vs y = none ↔ x ≠ y) ∧
    (CHECK_GT debug file line as bs a b =
      CHECK debug file line ("(" ++ as ++ ") > (" ++ bs ++ ")")
        (decide (a > b))) ∧
    (CHECK_GE debug file line as bs a b =
      CHECK debug file line ("(" ++ as ++ ") >= (" ++ bs ++ ")")
        (decide (a ≥ b))) ∧
    (CHECK_LT debug file line as bs a b =
      CHECK debug file line ("(" ++ as ++ ") < (" ++ bs ++ ")")
        (decide (a < b))) ∧
    (CHECK_LE debug file line as bs a b =
      CHECK debug file line ("(" ++ as ++ ") <= (" ++ bs ++ ")")
        (decide (a ≤ b))) ∧
    (CHECK_GT debug file line as bs a b = none ↔ a > b) ∧
    (CHECK_GT debug file line as bs 5 3 = none) ∧
    (CHECK_GT debug file line as bs 3 5 ≠ none) := by
  refine ⟨rfl, rfl, rfl, rfl, rfl, rfl, rfl, ?_, ?_, ?_, rfl, rfl, rfl, rfl,
    ?_, rfl, ?_⟩
  · cases c <;> simp [CHECK]
  · exact checkEqualsHelperInt_eq_none_iff file line es vs x y
  · by_cases h : x = y <;> simp [CHECK_NE_int, CheckNonEqualsHelperInt, h]
  · by_cases h : a > b <;> simp [CHECK_GT, CHECK, h]
  · simp [CHECK_GT, CHECK]

/-- C5: in development mode every ASSERT-family macro behaves identically to
the corresponding unconditional CHECK macro, and in production mode each is a
true no-op — for ASSERT the condition expression is not even evaluated and
the state is untouched — while ASSERT_RESULT(expr) checks expr in development
mode and in production mode still evaluates expr for its value (its side
effect on the state occurs) with the check elided. -/
theorem assert_family_build_mode {σ : Type} (file : String) (line : Int)
    (csrc es vs : String) (cond expr : σ → Bool × σ) (s : σ) (x y : Int) :
    (ASSERT true file line csrc cond s =
      (CHECK true file line csrc (cond s).1, (cond s).2)) ∧
    (ASSERT false file line csrc cond s = (none, s)) ∧
    (ASSERT_EQ true file line es x vs y =
      CHECK_EQ_int true file line es x vs y) ∧
    (ASSERT_EQ false file line es x vs y = none) ∧
    (ASSERT_NE true file line es x vs y =
      CHECK_NE_int true file line es x vs y) ∧
    (ASSERT_NE false file line es x vs y = none) ∧
    (ASSERT_GE true file line es x vs y = CHECK_GE true file line es vs x y) ∧
    (ASSERT_GE false file line es x vs y = none) ∧
    (ASSERT_LT true file line es x vs y = CHECK_LT true file line es vs x y) ∧
    (ASSERT_LT false file line es x vs y = none) ∧
    (ASSERT_LE true file line es x vs y = CHECK_LE true file line es vs x y) ∧
    (ASSERT_LE false file line es x vs y = none) ∧
    (ASSERT_RESULT true file line es expr s =
      (CHECK true file line es (expr s).1, (expr s).1, (expr s).2)) ∧
    (ASSERT_RESULT false file line es expr s =
      (none, (expr s).1, (expr s).2)) :=
  ⟨rfl, rfl, rfl, rfl, rfl, rfl, rfl, rfl, rfl, rfl, rfl, rfl, rfl, rfl⟩

/-- C6: UNREACHABLE() aborts unconditionally in development mode with the
"unreachable code" message and the call-site file/line, and in production
mode it is a no-op through which control falls without any effect. -/
theorem unreachable_build_mode (file : String) (line : Int) :
    UNREACHABLE true file line = some ⟨file, line, "unreachable code"⟩ ∧
    UNREACHABLE false file line = none :=
  ⟨rfl, rfl⟩

/-- C7: UNIMPLEMENTED() and FATAL(msg) invoke the fatal reporter in both
build modes, passing the call-site source location only in development mode
and an empty file name with a zero line number in production mode.  (The
reporter `V8_Fatal` itself is external to this repository; what is proved is
what these macros pass to it.) -/
theorem fatal_unimplemented_build_mode (debug : Bool) (file : String)
    (line : Int) (msg : String) :
    (FATAL debug file line msg).isSome = true ∧
    (UNIMPLEMENTED debug file line).isSome = true ∧
    FATAL true file line msg = some ⟨file, line, msg⟩ ∧
    FATAL false file line msg = some ⟨"", 0, msg⟩ ∧
    UNIMPLEMENTED true file line = some ⟨file, line, "unimplemented code"⟩ ∧
    UNIMPLEMENTED false file line = some ⟨"", 0, "unimplemented code"⟩ := by
  refine ⟨?_, ?_, rfl, rfl, rfl, rfl⟩ <;> cases debug <;> rfl

/-- C8: for the `const void*` comparison helpers, equality is decided solely
by identity (address) comparison, never by pointee content: the equals-mode
helper returns normally exactly when the addresses are equal, the
not-equals-mode helper exactly when they differ, and two distinct objects
with identical contents at different addresses make the equals-mode helper
abort. -/
theorem ptr_equality_is_identity (file : String) (line : Int) (es vs : String)
    (p q : CPtr) :
    (CheckEqualsHelperPtr file line es p vs q = none ↔ p.addr = q.addr) ∧
    (CheckNonEqualsHelperPtr file line es p vs q = none ↔ p.addr ≠ q.addr) ∧
    (p.addr ≠ q.addr → p.content = q.content →
      CheckEqualsHelperPtr file line es p vs q ≠ none) := by
  refine ⟨?_, ?_, ?_⟩
  · by_cases h : p.addr = q.addr <;> simp [CheckEqualsHelperPtr, h]
  · by_cases h : p.addr = q.addr <;> simp [CheckNonEqualsHelperPtr, h]
  · intro h _
    simp [CheckEqualsHelperPtr, h]

/-- C8 witness: the theorem applied to two objects with the same two bytes at
addresses 1 and 2. -/
theorem ptr_equality_is_identity_witness :
    (1 : Nat) ≠ 2 ∧
    ([7, 7] : List Nat) = [7, 7] ∧
    CheckEqualsHelperPtr "f.cc" 7 "a" ⟨1, [7, 7]⟩ "b" ⟨2, [7, 7]⟩ ≠ none :=
  ⟨by decide, rfl,
   (ptr_equality_is_identity "f.cc" 7 "a" "b" ⟨1, [7, 7]⟩ ⟨2, [7, 7]⟩).2.2
     (by decide) rfl⟩

/-- C9: PPCPORT_UNSAFE_IMPLEMENTATION() is a no-op whether or not the
platform extra-checks flag is set, while PPCPORT_CHECK and
PPCPORT_UNIMPLEMENTED expand to the active CHECK / UNIMPLEMENTED exactly when
the flag is set and to no-ops otherwise. -/
theorem ppcport_macro_gating (debug : Bool) (file : String) (line : Int)
    (csrc : String) (c : Bool) :
    PPCPORT_UNSAFE_IMPLEMENTATION true debug = none ∧
    PPCPORT_UNSAFE_IMPLEMENTATION false debug = none ∧
    PPCPORT_CHECK true debug file line csrc c = CHECK debug file line csrc c ∧
    PPCPORT_CHECK false debug file line csrc c = none ∧
    PPCPORT_UNIMPLEMENTED true debug file line =
      UNIMPLEMENTED debug file line ∧
    (PPCPORT_UNIMPLEMENTED true debug file line).isSome = true ∧
    PPCPORT_UNIMPLEMENTED false debug file line = none := by
  refine ⟨rfl, rfl, rfl, rfl, rfl, ?_, rfl⟩
  cases debug <;> rfl

/-! ### Lemmas about the heap the double helpers act on -/

/-- A store to a cell identifier no list entry holds leaves the list
unchanged. -/
theorem map_store_of_all_ne (l : List (CellId × Option CDouble)) (p : CellId)
    (x : CDouble) (hl : ∀ c ∈ l, c.1 ≠ p) :
    l.map (fun c => if c.1 = p then (p, some x) else c) = l := by
  induction l with
  | nil => rfl
  | cons c cs ih =>
    have h1 : c.1 ≠ p := hl c (by simp)
    have h2 := ih (fun d hd => hl d (by simp [hd]))
    simp [h1, h2]

/-- Deallocating a cell identifier no list entry holds leaves the list
unchanged. -/
theorem filter_ne_of_all_ne (l : List (CellId × Option CDouble)) (p : CellId)
    (hl : ∀ c ∈ l, c.1 ≠ p) : l.filter (fun c => c.1 != p) = l := by
  induction l with
  | nil => rfl
  | cons c cs ih =>
    have h1 : c.1 ≠ p := hl c (by simp)
    have h2 := ih (fun d hd => hl d (by simp [hd]))
    simp [h1, h2]

/-- The equals-mode double helper hands back the heap with exactly the live
cells it started from: the two cells it allocates are both freed and no other
cell is touched. -/
theorem checkEqualsHelperDouble_heap (file : String) (line : Int)
    (es vs : String) (e v : CDouble) (h : Heap) (hwf : Heap.wf h) :
    (CheckEqualsHelperDouble file line es e vs v h).2.1.cells = h.cells := by
  have hne1 : ∀ c ∈ h.cells, c.1 ≠ h.next :=
    fun c hc => Nat.ne_of_lt (hwf c hc)
  have hne2 : ∀ c ∈ h.cells, c.1 ≠ h.next + 1 :=
    fun c hc => Nat.ne_of_lt (Nat.lt_succ_of_lt (hwf c hc))
  have hmap1 :
      List.map (fun c => if c.1 = h.next then (h.next, some e) else c)
        ((h.next, none) :: h.cells) = (h.next, some e) :: h.cells := by
    simp [map_store_of_all_ne _ _ _ hne1]
  have hmap2 :
      List.map (fun c => if c.1 = h.next + 1 then (h.next + 1, some v) else c)
        ((h.next + 1, none) :: (h.next, some e) :: h.cells) =
        (h.next + 1, some v) :: (h.next, some e) :: h.cells := by
    have hx : h.next ≠ h.next + 1 := Nat.ne_of_lt (Nat.lt_succ_self _)
    simp [map_store_of_all_ne _ _ _ hne2, hx]
  have hfil1 :
      List.filter (fun c => c.1 != h.next)
        ((h.next + 1, some v) :: (h.next, some e) :: h.cells) =
        (h.next + 1, some v) :: h.cells := by
    simp [filter_ne_of_all_ne _ _ hne1]
  have hfil2 :
      List.filter (fun c => c.1 != h.next + 1)
        ((h.next + 1, some v) :: h.cells) = h.cells := by
    simp [filter_ne_of_all_ne _ _ hne2]
  simp only [CheckEqualsHelperDouble, Heap.alloc, Heap.store, Heap.dealloc]
  rw [hmap1, hmap2, hfil1, hfil2]

/-- The not-equals-mode double helper hands back the heap with exactly the
live cells it started from. -/
theorem checkNonEqualsHelperDouble_heap (file : String) (line : Int)
    (es vs : String) (e v : CDouble) (h : Heap) (hwf : Heap.wf h) :
    (CheckNonEqualsHelperDouble file line es e vs v h).2.1.cells = h.cells := by
  have hne1 : ∀ c ∈ h.cells, c.1 ≠ h.next :=
    fun c hc => Nat.ne_of_lt (hwf c hc)
  have hne2 : ∀ c ∈ h.cells, c.1 ≠ h.next + 1 :=
    fun c hc => Nat.ne_of_lt (Nat.lt_succ_of_lt (hwf c hc))
  have hmap1 :
      List.map (fun c => if c.1 = h.next then (h.next, some e) else c)
        ((h.next, none) :: h.cells) = (h.next, some e) :: h.cells := by
    simp [map_store_of_all_ne _ _ _ hne1]
  have hmap2 :
      List.map (fun c => if c.1 = h.next + 1 then (h.next + 1, some v) else c)
        ((h.next + 1, none) :: (h.next, some e) :: h.cells) =
        (h.next + 1, some v) :: (h.next, some e) :: h.cells := by
    have hx : h.next ≠ h.next + 1 := Nat.ne_of_lt (Nat.lt_succ_self _)
    simp [map_store_of_all_ne _ _ _ hne2, hx]
  have hfil1 :
      List.filter (fun c => c.1 != h.next)
        ((h.next + 1, some v) :: (h.next, some e) :: h.cells) =
        (h.next + 1, some v) :: h.cells := by
    simp [filter_ne_of_all_ne _ _ hne1]
  have hfil2 :
      List.filter (fun c => c.1 != h.next + 1)
        ((h.next + 1, some v) :: h.cells) = h.cells := by
    simp [filter_ne_of_all_ne _ _ hne2]
  simp only [CheckNonEqualsHelperDouble, Heap.alloc, Heap.store, Heap.dealloc]
  rw [hmap1, hmap2, hfil1, hfil2]

/-- C3 counterexample: a passing double-precision check — equal operands, the
result is `none` — still performs heap allocations: its event trace from the
empty heap is alloc, alloc, free, free, not the empty trace a success path
free of allocation side effects would leave. -/
theorem double_passing_check_allocates :
    (CheckEqualsHelperDouble "f.cc" 7 "a" 1 "b" 1 Heap.empty).1 = none ∧
    (CheckEqualsHelperDouble "f.cc" 7 "a" 1 "b" 1 Heap.empty).2.2 ≠ [] ∧
    (CheckEqualsHelperDouble "f.cc" 7 "a" 1 "b" 1 Heap.empty).2.2 =
      [HeapEvent.alloc 0, HeapEvent.alloc 1, HeapEvent.free 0,
       HeapEvent.free 1] := by
  refine ⟨rfl, ?_, rfl⟩
  decide

/-- C3 (amended): every comparison helper except the double-precision ones is
a pure function of its arguments (embedded without any state), and the
double-precision helpers — whose volatile round trip allocates with
`new double[1]`, an operation that can in principle fail — allocate exactly
two fresh cells and free exactly those two before returning, in either mode:
from any well-formed heap both double helpers return the heap with its live
cells unchanged, and their event trace is the two allocations followed by the
two matching frees, so repeated evaluation of a passing check accumulates no
state. -/
theorem double_helpers_balanced_allocation (file : String) (line : Int)
    (es vs : String) (e v : CDouble) (h : Heap) (hwf : Heap.wf h) :
    ((CheckEqualsHelperDouble file line es e vs v h).2.1.cells = h.cells ∧
     (CheckEqualsHelperDouble file line es e vs v h).2.2 =
       [HeapEvent.alloc h.next, HeapEvent.alloc (h.next + 1),
        HeapEvent.free h.next, HeapEvent.free (h.next + 1)]) ∧
    ((CheckNonEqualsHelperDouble file line es e vs v h).2.1.cells = h.cells ∧
     (CheckNonEqualsHelperDouble file line es e vs v h).2.2 =
       [HeapEvent.alloc h.next, HeapEvent.alloc (h.next + 1),
        HeapEvent.free h.next, HeapEvent.free (h.next + 1)]) :=
  ⟨⟨checkEqualsHelperDouble_heap file line es vs e v h hwf, rfl⟩,
   ⟨checkNonEqualsHelperDouble_heap file line es vs e v h hwf, rfl⟩⟩

/-- C3 witness: the amended theorem applied to the empty heap and the
operands 1 and 2. -/
theorem double_helpers_balanced_allocation_witness :
    Heap.wf Heap.empty ∧
    (((CheckEqualsHelperDouble "f.cc" 7 "a" 1 "b" 2 Heap.empty).2.1.cells =
        Heap.empty.cells ∧
      (CheckEqualsHelperDouble "f.cc" 7 "a" 1 "b" 2 Heap.empty).2.2 =
        [HeapEvent.alloc Heap.empty.next, HeapEvent.alloc (Heap.empty.next + 1),
         HeapEvent.free Heap.empty.next,
         HeapEvent.free (Heap.empty.next + 1)]) ∧
     ((CheckNonEqualsHelperDouble "f.cc" 7 "a" 1 "b" 2 Heap.empty).2.1.cells =
        Heap.empty.cells ∧
      (CheckNonEqualsHelperDouble "f.cc" 7 "a" 1 "b" 2 Heap.empty).2.2 =
        [HeapEvent.alloc Heap.empty.next, HeapEvent.alloc (Heap.empty.next + 1),
         HeapEvent.free Heap.empty.next,
         HeapEvent.free (Heap.empty.next + 1)])) :=
  ⟨fun c hc => absurd hc (List.not_mem_nil c),
   double_helpers_balanced_allocation "f.cc" 7 "a" "b" 1 2 Heap.empty
     (fun c hc => absurd hc (List.not_mem_nil c))⟩

end V8Base
